import Mathlib

/-!
Verification of the houlak-cli database-connection lifecycle manager
(`houlak_cli/db_connect.py` and its collaborators) against its
natural-language specification.

The Python source is shallowly embedded: external effects (the identity
check, the parameter-store lookup, port probing, the tunnel subprocess)
are supplied as an explicit environment value, and each source function
becomes a total Lean function over that environment, mirroring the
source's control flow branch by branch.
-/

namespace Houlak

/-! ## Port Prober (`houlak_cli/utils.py`)

`is_port_in_use` probes a real socket; here the probe result is an
abstract function `inUse : Nat → Bool` supplied by the environment.
`find_available_port` mirrors `utils.find_available_port`: it scans
`range(start_port, start_port + max_attempts)` in increasing order and
returns the first port not in use. -/

def find_available_port (inUse : Nat → Bool) (start_port : Nat) : Nat → Option Nat
  | 0 => none
  | maxAttempts + 1 =>
    if !inUse start_port then some start_port
    else find_available_port inUse (start_port + 1) maxAttempts

/-! ## Session Validator (`houlak_cli/validators.py`)

`validate_aws_session` runs `aws sts get-caller-identity` via
`subprocess.run(..., check=True, timeout=10)` inside a `try` that
catches every exception and returns `False`.  The possible outcomes of
that external call are enumerated by `IdentityCheckOutcome`. -/

inductive IdentityCheckOutcome
  /-- the external command ran to completion with this return code -/
  | exited (returncode : Int)
  /-- `subprocess.TimeoutExpired` after the 10-second bound -/
  | timedOut
  /-- credentials/config missing, command not found, etc. -/
  | noCredentials
  /-- any other exception raised by the call -/
  | otherError
deriving DecidableEq, Repr

/-- `subprocess.run(..., check=True)`: returns the completed process only
when the return code is zero, otherwise raises `CalledProcessError`;
all other outcomes raise their exception. -/
def runCheckedIdentity (o : IdentityCheckOutcome) : Except Unit Int :=
  match o with
  | .exited rc => if rc == 0 then .ok rc else .error ()
  | _ => .error ()

/-- `validators.validate_aws_session`: any exception from the checked
call yields `false`; otherwise the result is `returncode == 0`. -/
def validate_aws_session (o : IdentityCheckOutcome) : Bool :=
  match runCheckedIdentity o with
  | .ok rc => rc == 0
  | .error _ => false

/-! ## Constants (`houlak_cli/constants.py`) -/

def DEFAULT_ENGINE : String := "postgres"

/-- `constants.DEFAULT_PORTS` as a lookup function. -/
def DEFAULT_PORTS (engine : String) : Option Nat :=
  if engine == "postgres" then some 54320
  else if engine == "postgresql" then some 54320
  else if engine == "mariadb" then some 33060
  else if engine == "mysql" then some 33060
  else none

/-- Python `str.lower()` restricted to ASCII, which is all the engine
names use. -/
def lowerChar (c : Char) : Char :=
  if 'A' <= c /\ c <= 'Z' then Char.ofNat (c.toNat + 32) else c

def lowerString (s : String) : String :=
  String.mk (s.toList.map lowerChar)

/-- `DEFAULT_PORTS.get(engine.lower(), DEFAULT_PORTS[DEFAULT_ENGINE])`
from `db_connect.connect_to_database`; `DEFAULT_PORTS[DEFAULT_ENGINE]`
is the literal entry 54320. -/
def defaultPortFor (engine : String) : Nat :=
  match DEFAULT_PORTS (lowerString engine) with
  | some p => p
  | none => 54320

/-! ## Tunnel shutdown (`db_connect.connect_to_database`, `signal_handler`)

The nested `signal_handler` closes over the tunnel subprocess handle
and a `threading.Event` shutdown flag.  The subprocess's behaviour
under the shutdown sequence is abstracted by `ProcShutdown`:
`terminateExc` says whether `process.terminate()` raises, `exitTime`
is the number of 100 ms sleeps after the terminate request at which
`process.poll()` first reports an exit (`none` = the process never
exits on its own), `killExc` whether `process.kill()` raises, and
`waitTimesOut` whether `process.wait(timeout=1)` raises
`TimeoutExpired`.  The exception classes that the process-control
primitives raise are exactly the ones the handler's first `except`
clause names. -/

inductive ShutdownExc
  | timeoutExpired
  | osError
  | processLookup
deriving DecidableEq, Repr

structure ProcShutdown where
  terminateExc : Option ShutdownExc
  exitTime : Option Nat
  killExc : Option ShutdownExc
  waitTimesOut : Bool
deriving DecidableEq, Repr

/-- Observable steps of the signal handler, in program order. -/
inductive SEvent
  | setFlag        -- `shutdown_event.set()`
  | printStopping  -- "Stopping tunnel..."
  | terminate      -- `process.terminate()`
  | pollTick       -- one iteration of the 30 × 0.1 s poll loop
  | forceKill      -- `process.kill()`
  | waitKill       -- `process.wait(timeout=1)`
  | printStopped   -- "Tunnel stopped"
  | printForce     -- "Force exiting..."
  | exitOk         -- `sys.exit(0)` in the `finally` block
  | hardExit       -- `os._exit(1)`
deriving DecidableEq, Repr

/-- Number of iterations the poll loop `for i in range(30)` executes:
iteration `i` polls after `i` sleeps, so the loop breaks at iteration
`t` when the process exits after `t` sleeps with `t < 30`. -/
def pollIterations (exitTime : Option Nat) : Nat :=
  match exitTime with
  | some t => min (t + 1) 30
  | none => 30

/-- Whether `process.poll()` is still `None` at the check after the
poll loop (30 sleeps have elapsed by then). -/
def aliveAfterPollLoop (exitTime : Option Nat) : Bool :=
  match exitTime with
  | some t => 30 < t
  | none => true

/-- The `try`/`except` body of the graceful shutdown: terminate, poll
up to 30 times at 100 ms, then kill + wait if still alive.  Each
`some` exception jumps to the `except (TimeoutExpired, OSError,
ProcessLookupError)` clause, which prints "Tunnel stopped". -/
def gracefulBody (p : ProcShutdown) : List SEvent :=
  match p.terminateExc with
  | some _ => [.terminate, .printStopped]
  | none =>
    let polls := List.replicate (pollIterations p.exitTime) SEvent.pollTick
    if aliveAfterPollLoop p.exitTime then
      match p.killExc with
      | some _ => .terminate :: polls ++ [.forceKill, .printStopped]
      | none =>
        -- `wait(timeout=1)` raising TimeoutExpired lands in the same
        -- except clause, which also prints "Tunnel stopped"
        .terminate :: polls ++ [.forceKill, .waitKill, .printStopped]
    else
      .terminate :: polls ++ [.printStopped]

structure HandlerResult where
  events : List SEvent
  exitCode : Nat
  flagAfter : Bool
deriving DecidableEq, Repr

/-- `db_connect.signal_handler`: if the shutdown flag is already set,
`os._exit(1)` immediately; otherwise set the flag, run the graceful
sequence, and `sys.exit(0)` from the `finally` block. -/
def signal_handler (flagSet : Bool) (p : ProcShutdown) : HandlerResult :=
  if flagSet then
    { events := [.printForce, .hardExit], exitCode := 1, flagAfter := flagSet }
  else
    { events := .setFlag :: .printStopping :: (gracefulBody p ++ [.exitOk]),
      exitCode := 0,
      flagAfter := true }

/-! ## Diagnostics (`db_connect.connect_to_database`, early-failure path)

Python's `"255" in str(stderr)` is a substring test; `hasSub` is the
corresponding list-of-characters test. -/

def matchesHere : List Char → List Char → Bool
  | [], _ => true
  | _ :: _, [] => false
  | a :: as, b :: bs => a == b && matchesHere as bs

def hasSub (needle : List Char) : List Char → Bool
  | [] => needle.isEmpty
  | c :: rest => matchesHere needle (c :: rest) || hasSub needle rest

def strHasSub (hay needle : String) : Bool :=
  hasSub needle.toList hay.toList

/-- The diagnostic classes of the early-failure `if`/`elif` chain on
(`error_code`, `stderr`). -/
inductive DiagClass
  /-- "AWS SSO session expired or invalid / insufficient permissions /
  bastion unreachable / network connectivity" — the code-255 branch -/
  | sessionCredentialConnectivity
  | targetNotConnected
  | accessDenied
  | generic
deriving DecidableEq, Repr

/-- The branch selection at lines 171–186 of `db_connect.py`:
`if error_code == 255 or "255" in str(stderr): ... elif
"TargetNotConnected" in str(stderr): ... elif "AccessDenied" in
str(stderr): ... else: ...`. -/
def classifyEarlyFailure (errorCode : Int) (stderr : String) : DiagClass :=
  if errorCode == 255 || strHasSub stderr "255" then
    .sessionCredentialConnectivity
  else if strHasSub stderr "TargetNotConnected" then
    .targetNotConnected
  else if strHasSub stderr "AccessDenied" then
    .accessDenied
  else
    .generic

/-! ## Config Resolver data (`db_connect.connect_to_database` lines 86–95)

`db_config` is a parsed JSON dict; each extracted field is optional.
Python's `if not x` treats a missing key, an empty string and the
integer 0 as falsy. -/

structure DbConfig where
  bastionInstanceId : Option String
  rdsEndpoint : Option String
  rdsPort : Option Nat
  region : Option String
  engine : Option String
  environment : Option String
deriving DecidableEq, Repr

/-- Python falsiness of `db_config.get(key)` for a string field. -/
def strFalsy : Option String → Bool
  | none => true
  | some s => s == ""

/-- Python falsiness of `db_config.get(key)` for an integer field. -/
def natFalsy : Option Nat → Bool
  | none => true
  | some n => n == 0

/-- The guard `if not bastion_instance_id or not rds_endpoint or not
rds_port` that makes a resolved record malformed. -/
def malformedRecord (cfg : DbConfig) : Bool :=
  strFalsy cfg.bastionInstanceId || strFalsy cfg.rdsEndpoint || natFalsy cfg.rdsPort

/-! ## Connection History Recorder (`houlak_cli/config.py`)

The cache is a JSON dict; `save_last_connection` assigns the
`"last_connection"` key and `get_last_connection` reads it back. -/

structure LastConnection where
  database : String
  engine : String
  environment : String
  port : Nat
  profile : String
deriving DecidableEq, Repr

inductive CacheValue
  | conn (c : LastConnection)
  | other (raw : String)
deriving DecidableEq, Repr

/-- Python dict assignment `self.cache[key] = value`, modelled on an
association list where the most recent binding shadows older ones. -/
def cacheSet (cache : List (String × CacheValue)) (key : String) (v : CacheValue) :
    List (String × CacheValue) :=
  (key, v) :: cache

/-- Python dict read `self.cache.get(key)`. -/
def cacheGet (cache : List (String × CacheValue)) (key : String) : Option CacheValue :=
  (cache.find? (fun p => p.1 == key)).map (fun p => p.2)

/-- `Config.save_last_connection`. -/
def save_last_connection (cache : List (String × CacheValue)) (database engine env : String)
    (port : Nat) (profile : String) : List (String × CacheValue) :=
  cacheSet cache "last_connection"
    (.conn { database := database, engine := engine, environment := env,
             port := port, profile := profile })

/-- `Config.get_last_connection`. -/
def get_last_connection (cache : List (String × CacheValue)) : Option CacheValue :=
  cacheGet cache "last_connection"

/-! ## Tunnel Supervisor (`db_connect.connect_to_database`)

The environment packages every external effect the function consults,
in the order the source consults them. -/

/-- What happens inside the blocking `process.wait()` once the tunnel
is established. -/
inductive RunResult
  /-- the subprocess exits on its own with this return code -/
  | natural (rc : Int)
  /-- `KeyboardInterrupt` (or a delivered SIGINT/SIGTERM) — the source
  routes it to `signal_handler` -/
  | interrupted
  /-- any other exception during the wait — also routed to
  `signal_handler` -/
  | waitError
deriving DecidableEq, Repr

structure Env where
  /-- outcome of `aws sts get-caller-identity` for the profile -/
  identityCheck : IdentityCheckOutcome
  /-- answer to `Confirm.ask("Run SSO login?")` -/
  confirmLogin : Bool
  /-- whether `execute_sso_login` succeeds -/
  loginOk : Bool
  /-- `get_database_config` result: `none` = not found / malformed JSON -/
  dbConfig : Option DbConfig
  /-- `is_port_in_use` for each local port -/
  portInUse : Nat → Bool
  /-- answer to `Confirm.ask("Use port p instead?")` -/
  confirmAltPort : Nat → Bool
  /-- whether `start_ssm_port_forwarding` returns without raising -/
  launchOk : Bool
  /-- `process.poll()` after the 2-second grace sleep: `some rc` means
  the subprocess already exited with code `rc` -/
  earlyExit : Option Int
  /-- captured stderr at the early-failure check -/
  earlyStderr : String
  /-- behaviour of the blocking wait once Running -/
  run : RunResult
  /-- subprocess behaviour under the shutdown sequence -/
  shutdownProc : ProcShutdown

/-- The session-validation block (lines 67-75): the connection is
blocked when the session is invalid and the user either declines the
SSO login (`Confirm.ask`) or the SSO login fails. -/
def sessionBlocked (env : Env) : Bool :=
  !validate_aws_session env.identityCheck &&
    !(if env.confirmLogin then env.loginOk else false)

/-- Outcome of the local-port negotiation block (identical in the
default-port and explicit-port branches of the source). -/
inductive PortOutcome
  | ok (port : Nat)
  /-- user declined the alternative port: "Connection cancelled" -/
  | cancelled
  /-- `find_available_port` returned `None`: "No available ports found" -/
  | noPorts
deriving DecidableEq, Repr

/-- Lines 103–129 of `db_connect.py`: if the candidate port is in use,
scan for an alternative and ask the user; otherwise keep it. -/
def negotiatePort (env : Env) (candidate : Nat) : PortOutcome :=
  if env.portInUse candidate then
    match find_available_port env.portInUse candidate 10 with
    | some alt => if env.confirmAltPort alt then .ok alt else .cancelled
    | none => .noPorts
  else
    .ok candidate

/-- Observable outcome of one `connect_to_database` invocation.
`exitCode` is the process exit status (a plain `return` from the CLI
command is status 0). -/
structure ConnectResult where
  exitCode : Nat
  /-- the re-auth question was shown (`Confirm.ask("Run SSO login?")`) -/
  offeredLogin : Bool := false
  /-- `get_database_config` was invoked -/
  lookedUp : Bool := false
  /-- `start_ssm_port_forwarding` was invoked -/
  launchAttempted : Bool := false
  /-- local port passed to the launcher -/
  launchedPort : Option Nat := none
  /-- region passed to the launcher -/
  launchedRegion : Option String := none
  /-- diagnostic class chosen on the early-failure path -/
  earlyClass : Option DiagClass := none
  /-- argument of `config.save_last_connection`, when reached -/
  saved : Option LastConnection := none
  /-- events of the signal handler, when it ran -/
  handlerEvents : List SEvent := []

/-- `db_connect.connect_to_database(database_name, profile, port)`,
with every external effect drawn from `env`. -/
def connect_to_database (databaseName profile : String) (port : Option Nat) (env : Env) :
    ConnectResult :=
  -- session validation (lines 67–75)
  if sessionBlocked env then
    { exitCode := 1, offeredLogin := true }
  else
    -- parameter-store lookup (lines 78–83)
    match env.dbConfig with
    | none => { exitCode := 1, offeredLogin := !validate_aws_session env.identityCheck, lookedUp := true }
    | some cfg =>
      -- field extraction with defaults and the malformed guard (86–95)
      if malformedRecord cfg then
        { exitCode := 1, offeredLogin := !validate_aws_session env.identityCheck, lookedUp := true }
      else
        let engine := cfg.engine.getD "postgres"
        let region := cfg.region.getD "us-east-1"
        let environment := cfg.environment.getD "unknown"
        -- local-port determination (97–129); `if not port` is also
        -- taken when the caller passes 0
        let candidate :=
          match port with
          | none => defaultPortFor engine
          | some p => if p == 0 then defaultPortFor engine else p
        match negotiatePort env candidate with
        | .cancelled => { exitCode := 1, offeredLogin := !validate_aws_session env.identityCheck, lookedUp := true }
        | .noPorts => { exitCode := 1, offeredLogin := !validate_aws_session env.identityCheck, lookedUp := true }
        | .ok lport =>
          -- subprocess launch (137–145); a raise lands in the outer
          -- `except Exception` (299–301)
          if !env.launchOk then
            { exitCode := 1, offeredLogin := !validate_aws_session env.identityCheck, lookedUp := true,
              launchAttempted := true, launchedPort := some lport,
              launchedRegion := some region }
          else
            -- 2-second grace window, then one poll (148–197)
            match env.earlyExit with
            | some rc =>
              { exitCode := 1, offeredLogin := !validate_aws_session env.identityCheck, lookedUp := true,
                launchAttempted := true, launchedPort := some lport,
                launchedRegion := some region,
                earlyClass := some (classifyEarlyFailure rc env.earlyStderr) }
            | none =>
              -- Running: record the connection (199–206), then block
              let savedRec : LastConnection :=
                { database := databaseName, engine := engine,
                  environment := environment, port := lport, profile := profile }
              match env.run with
              | .natural _ =>
                -- natural end: warnings for rc ≠ 0, then plain return
                { exitCode := 0, offeredLogin := !validate_aws_session env.identityCheck, lookedUp := true,
                  launchAttempted := true, launchedPort := some lport,
                  launchedRegion := some region, saved := some savedRec }
              | .interrupted =>
                let h := signal_handler false env.shutdownProc
                { exitCode := h.exitCode, offeredLogin := !validate_aws_session env.identityCheck,
                  lookedUp := true, launchAttempted := true,
                  launchedPort := some lport, launchedRegion := some region,
                  saved := some savedRec, handlerEvents := h.events }
              | .waitError =>
                let h := signal_handler false env.shutdownProc
                { exitCode := h.exitCode, offeredLogin := !validate_aws_session env.identityCheck,
                  lookedUp := true, launchAttempted := true,
                  launchedPort := some lport, launchedRegion := some region,
                  saved := some savedRec, handlerEvents := h.events }

/-- The CLI wrapper `cli.db_connect`: a missing/unresolvable profile is
`sys.exit(1)` before `connect_to_database` is ever called; otherwise
the command's exit status is the one `connect_to_database` produces. -/
def db_connect_cli (databaseName : String) (resolvedProfile : Option String)
    (port : Option Nat) (env : Env) : Nat :=
  match resolvedProfile with
  | none => 1
  | some p => (connect_to_database databaseName p port env).exitCode

/-! ## Theorems -/

/-- C6: for every `startPort` and `maxAttempts`, `find_available_port`
scans `[startPort, startPort + maxAttempts)` in increasing order and
returns the smallest port in that window that is not in use, or `none`
if every port in the window is in use; the scan is a deterministic
first-fit (witnessed by the minimality conjunct). -/
theorem find_available_port_first_fit (inUse : Nat → Bool) (start maxAttempts : Nat) :
    (∀ p, find_available_port inUse start maxAttempts = some p →
      start ≤ p ∧ p < start + maxAttempts ∧ inUse p = false ∧
      ∀ q, start ≤ q → q < p → inUse q = true) ∧
    (find_available_port inUse start maxAttempts = none →
      ∀ q, start ≤ q → q < start + maxAttempts → inUse q = true) := by
  induction maxAttempts generalizing start with
  | zero =>
    refine ⟨?_, ?_⟩
    · intro p hp
      simp [find_available_port] at hp
    · intro _ q hq1 hq2
      omega
  | succ n ih =>
    refine ⟨?_, ?_⟩
    · intro p hp
      rw [find_available_port] at hp
      cases h : inUse start with
      | false =>
        rw [h] at hp
        simp at hp
        subst hp
        exact ⟨Nat.le_refl _, by omega, h, fun q hq1 hq2 => absurd hq2 (by omega)⟩
      | true =>
        rw [h] at hp
        simp at hp
        obtain ⟨h1, h2, h3, h4⟩ := (ih (start + 1)).1 p hp
        refine ⟨by omega, by omega, h3, ?_⟩
        intro q hq1 hq2
        rcases Nat.lt_or_ge q (start + 1) with hlt | hge
        · have hq : q = start := by omega
          subst hq
          exact h
        · exact h4 q hge hq2
    · intro hp q hq1 hq2
      rw [find_available_port] at hp
      cases h : inUse start with
      | false =>
        rw [h] at hp
        simp at hp
      | true =>
        rw [h] at hp
        simp at hp
        rcases Nat.lt_or_ge q (start + 1) with hlt | hge
        · have hq : q = start := by omega
          subst hq
          exact h
        · exact (ih (start + 1)).2 hp q hge (by omega)

/-- Witness for C6 at a concrete probe: ports below 8005 are busy, so
the scan starting at 8000 with the default 10 attempts settles on 8005
and everything before it was in use. -/
theorem find_available_port_first_fit_witness :
    8000 ≤ 8005 ∧ 8005 < 8000 + 10 ∧ (fun q => decide (q < 8005)) 8005 = false ∧
      ∀ q, 8000 ≤ q → q < 8005 → (fun q => decide (q < 8005)) q = true :=
  (find_available_port_first_fit (fun q => decide (q < 8005)) 8000 10).1 8005 (by decide)

/-- C8: the session-validity check is total — it is a Lean function
into `Bool`, and it returns `true` exactly when the external identity
check ran to completion with return code 0; every failure mode
(timeout, non-zero exit, missing credentials, any other exception)
yields `false` rather than an error. -/
theorem validate_aws_session_total (o : IdentityCheckOutcome) :
    validate_aws_session o = true ↔ o = IdentityCheckOutcome.exited 0 := by
  cases o with
  | exited rc =>
    by_cases h : rc = 0
    · subst h
      simp [validate_aws_session, runCheckedIdentity]
    · simp [validate_aws_session, runCheckedIdentity, h]
  | timedOut => simp [validate_aws_session, runCheckedIdentity]
  | noCredentials => simp [validate_aws_session, runCheckedIdentity]
  | otherError => simp [validate_aws_session, runCheckedIdentity]

/-- Witness for C8: a clean identity check is the one validated
session, and a timeout is reported as `false`, not an error. -/
theorem validate_aws_session_total_witness :
    validate_aws_session (IdentityCheckOutcome.exited 0) = true :=
  (validate_aws_session_total (IdentityCheckOutcome.exited 0)).mpr rfl

/-! ### Shutdown-sequence helper lemmas -/

lemma pollIterations_le (t : Option Nat) : pollIterations t ≤ 30 := by
  cases t with
  | none => simp [pollIterations]
  | some k => simp [pollIterations]

lemma gracefulBody_count_terminate (p : ProcShutdown) :
    (gracefulBody p).count SEvent.terminate = 1 := by
  unfold gracefulBody
  cases p.terminateExc with
  | some e => rfl
  | none =>
    cases haf : aliveAfterPollLoop p.exitTime with
    | true =>
      cases p.killExc with
      | some e =>
        simp [List.count_cons, List.count_append, List.count_replicate]
      | none =>
        simp [List.count_cons, List.count_append, List.count_replicate]
    | false =>
      simp [List.count_cons, List.count_append, List.count_replicate]

lemma gracefulBody_mem_stopped (p : ProcShutdown) :
    SEvent.printStopped ∈ gracefulBody p := by
  unfold gracefulBody
  cases p.terminateExc with
  | some e => simp
  | none =>
    cases haf : aliveAfterPollLoop p.exitTime with
    | true =>
      cases p.killExc with
      | some e => simp
      | none => simp
    | false => simp

lemma gracefulBody_count_pollTick (p : ProcShutdown) :
    (gracefulBody p).count SEvent.pollTick ≤ 30 := by
  unfold gracefulBody
  cases p.terminateExc with
  | some e => simp [List.count_cons]
  | none =>
    cases haf : aliveAfterPollLoop p.exitTime with
    | true =>
      cases p.killExc with
      | some e =>
        simpa [List.count_cons, List.count_append, List.count_replicate]
          using pollIterations_le p.exitTime
      | none =>
        simpa [List.count_cons, List.count_append, List.count_replicate]
          using pollIterations_le p.exitTime
    | false =>
      simpa [List.count_cons, List.count_append, List.count_replicate]
        using pollIterations_le p.exitTime

lemma gracefulBody_forceKill_of_alive (p : ProcShutdown)
    (h1 : p.terminateExc = none) (h2 : aliveAfterPollLoop p.exitTime = true) :
    SEvent.forceKill ∈ gracefulBody p := by
  unfold gracefulBody
  rw [h1, h2]
  cases p.killExc with
  | some e => simp
  | none => simp

lemma gracefulBody_waitKill_of_alive (p : ProcShutdown)
    (h1 : p.terminateExc = none) (hk : p.killExc = none)
    (h2 : aliveAfterPollLoop p.exitTime = true) :
    SEvent.waitKill ∈ gracefulBody p := by
  unfold gracefulBody
  rw [h1, h2, hk]
  simp

lemma gracefulBody_no_forceKill_of_exited (p : ProcShutdown)
    (h1 : p.terminateExc = none) (h2 : aliveAfterPollLoop p.exitTime = false) :
    SEvent.forceKill ∉ gracefulBody p := by
  unfold gracefulBody
  rw [h1, h2]
  simp [List.mem_replicate]

/-- C1: shutdown is idempotent under repeated signals.  The first
signal while Running (flag clear) sets the shutdown flag as its very
first step — before any blocking work — runs the graceful sequence
exactly once (one terminate request) and exits with code 0; a second
signal arriving while shutdown is already in progress (flag set) is an
immediate hard exit with code 1 whose trace contains none of the
graceful sequence. -/
theorem shutdown_idempotent_two_signals (p : ProcShutdown) :
    (signal_handler false p).exitCode = 0 ∧
    (signal_handler false p).flagAfter = true ∧
    (signal_handler false p).events.head? = some SEvent.setFlag ∧
    (signal_handler false p).events.count SEvent.terminate = 1 ∧
    (signal_handler (signal_handler false p).flagAfter p).exitCode = 1 ∧
    (signal_handler (signal_handler false p).flagAfter p).events =
      [SEvent.printForce, SEvent.hardExit] ∧
    (signal_handler (signal_handler false p).flagAfter p).events.count
      SEvent.terminate = 0 := by
  refine ⟨rfl, rfl, rfl, ?_, rfl, rfl, rfl⟩
  have h := gracefulBody_count_terminate p
  simp [signal_handler, List.count_cons, List.count_append, h]

/-- C3: the graceful shutdown sequence sends exactly one terminate
request, polls at most 30 times (3 seconds at 100 ms), escalates to an
unconditional kill (with its short wait) exactly when the subprocess is
still alive after the poll window, absorbs every exception the
process-control calls raise, always reports "Tunnel stopped", and
always exits with code 0. -/
theorem graceful_shutdown_sequence (p : ProcShutdown) :
    (signal_handler false p).exitCode = 0 ∧
    SEvent.printStopped ∈ (signal_handler false p).events ∧
    (signal_handler false p).events.count SEvent.terminate = 1 ∧
    (signal_handler false p).events.count SEvent.pollTick ≤ 30 ∧
    (p.terminateExc = none → aliveAfterPollLoop p.exitTime = true →
      SEvent.forceKill ∈ (signal_handler false p).events ∧
      (p.killExc = none → SEvent.waitKill ∈ (signal_handler false p).events)) ∧
    (p.terminateExc = none → aliveAfterPollLoop p.exitTime = false →
      SEvent.forceKill ∉ (signal_handler false p).events) := by
  refine ⟨rfl, ?_, ?_, ?_, ?_, ?_⟩
  · have h := gracefulBody_mem_stopped p
    simp [signal_handler]
    exact h
  · have h := gracefulBody_count_terminate p
    simp [signal_handler, List.count_cons, List.count_append, h]
  · have h := gracefulBody_count_pollTick p
    calc (signal_handler false p).events.count SEvent.pollTick
        = (gracefulBody p).count SEvent.pollTick := by
          simp [signal_handler, List.count_cons, List.count_append]
      _ ≤ 30 := h
  · intro h1 h2
    refine ⟨?_, ?_⟩
    · have h := gracefulBody_forceKill_of_alive p h1 h2
      simp [signal_handler]
      exact h
    · intro hk
      have h := gracefulBody_waitKill_of_alive p h1 hk h2
      simp [signal_handler]
      exact h
  · intro h1 h2
    have h := gracefulBody_no_forceKill_of_exited p h1 h2
    simp [signal_handler]
    exact h

/-- Witness for C3 at a concrete subprocess that never exits on its
own: the kill escalation and its short wait both appear in the trace,
and the shutdown still reports stopped with exit code 0. -/
theorem graceful_shutdown_sequence_witness :
    (signal_handler false ⟨none, none, none, false⟩).exitCode = 0 ∧
      SEvent.forceKill ∈ (signal_handler false ⟨none, none, none, false⟩).events := by
  have h := graceful_shutdown_sequence ⟨none, none, none, false⟩
  exact ⟨h.1, (h.2.2.2.2.1 rfl rfl).1⟩

/-- C2: the connect operation's process exit status is always 0 or 1;
it is 0 exactly when the tunnel was established (launcher invoked, it
returned a live subprocess, and the subprocess survived the 2-second
grace window) — in particular 0 for both graceful stops (natural end
and interrupt-triggered stop) regardless of how the run ends — and 1
on every hard stop; a missing profile is rejected by the CLI wrapper
with exit status 1 before the connect operation runs. -/
theorem connect_exit_codes (databaseName profile : String) (port : Option Nat) (env : Env) :
    ((connect_to_database databaseName profile port env).exitCode = 0 ∨
      (connect_to_database databaseName profile port env).exitCode = 1) ∧
    ((connect_to_database databaseName profile port env).exitCode = 0 ↔
      ((connect_to_database databaseName profile port env).launchAttempted = true ∧
        env.launchOk = true ∧ env.earlyExit = none)) ∧
    db_connect_cli databaseName none port env = 1 := by
  refine ⟨?_, ?_, rfl⟩
  · unfold connect_to_database
    repeat' split
    all_goals try simp_all [signal_handler]
    all_goals repeat' split
    all_goals simp_all [signal_handler]
  · unfold connect_to_database
    repeat' split
    all_goals try simp_all [signal_handler]
    all_goals repeat' split
    all_goals simp_all [signal_handler]

/-- Witness for C2 at a concrete environment where everything
succeeds and the tunnel ends naturally: exit status 0. -/
theorem connect_exit_codes_witness :
    (connect_to_database "hk-postgres-dev" "houlak" none
      { identityCheck := .exited 0, confirmLogin := false, loginOk := false,
        dbConfig := some ⟨some "i-0123", some "db.internal", some 5432, none, none, none⟩,
        portInUse := fun _ => false, confirmAltPort := fun _ => true,
        launchOk := true, earlyExit := none, earlyStderr := "", run := .natural 0,
        shutdownProc := ⟨none, some 0, none, false⟩ }).exitCode = 0 := by
  have h := connect_exit_codes "hk-postgres-dev" "houlak" none
    { identityCheck := .exited 0, confirmLogin := false, loginOk := false,
      dbConfig := some ⟨some "i-0123", some "db.internal", some 5432, none, none, none⟩,
      portInUse := fun _ => false, confirmAltPort := fun _ => true,
      launchOk := true, earlyExit := none, earlyStderr := "", run := .natural 0,
      shutdownProc := ⟨none, some 0, none, false⟩ }
  exact h.2.1.mpr ⟨by decide, rfl, rfl⟩

/-- C5: a resolved record missing any of `bastionInstanceId`,
`rdsEndpoint` (remote host) or `rdsPort` is a malformed resolution:
the connect operation exits with status 1 and the tunnel launcher is
never invoked. -/
theorem malformed_record_no_launch (databaseName profile : String) (port : Option Nat)
    (env : Env) (cfg : DbConfig) (hcfg : env.dbConfig = some cfg)
    (hmiss : cfg.bastionInstanceId = none ∨ cfg.rdsEndpoint = none ∨ cfg.rdsPort = none) :
    (connect_to_database databaseName profile port env).exitCode = 1 ∧
    (connect_to_database databaseName profile port env).launchAttempted = false := by
  have hmal : malformedRecord cfg = true := by
    rcases hmiss with h | h | h
    · simp [malformedRecord, strFalsy, h]
    · simp [malformedRecord, strFalsy, h]
    · simp [malformedRecord, natFalsy, h]
  unfold connect_to_database
  rw [hcfg]
  simp only [hmal]
  split
  · exact ⟨rfl, rfl⟩
  · simp

/-- Witness for C5: a record with no `rdsPort` hard-stops without a
launch. -/
theorem malformed_record_no_launch_witness :
    (connect_to_database "hk-postgres-dev" "houlak" none
      { identityCheck := .exited 0, confirmLogin := false, loginOk := false,
        dbConfig := some ⟨some "i-0123", some "db.internal", none, none, none, none⟩,
        portInUse := fun _ => false, confirmAltPort := fun _ => true,
        launchOk := true, earlyExit := none, earlyStderr := "", run := .natural 0,
        shutdownProc := ⟨none, some 0, none, false⟩ }).exitCode = 1 ∧
    (connect_to_database "hk-postgres-dev" "houlak" none
      { identityCheck := .exited 0, confirmLogin := false, loginOk := false,
        dbConfig := some ⟨some "i-0123", some "db.internal", none, none, none, none⟩,
        portInUse := fun _ => false, confirmAltPort := fun _ => true,
        launchOk := true, earlyExit := none, earlyStderr := "", run := .natural 0,
        shutdownProc := ⟨none, some 0, none, false⟩ }).launchAttempted = false :=
  malformed_record_no_launch "hk-postgres-dev" "houlak" none _
    ⟨some "i-0123", some "db.internal", none, none, none, none⟩ rfl
    (Or.inr (Or.inr rfl))

/-- C9: when the session is invalid the re-authentication question is
always shown; if the user declines, or accepts but the SSO login
fails, the operation exits with status 1 and neither the config lookup
nor the tunnel launch is ever attempted. -/
theorem invalid_session_reauth_gate (databaseName profile : String) (port : Option Nat)
    (env : Env) (hinv : validate_aws_session env.identityCheck = false) :
    (connect_to_database databaseName profile port env).offeredLogin = true ∧
    (env.confirmLogin = false →
      (connect_to_database databaseName profile port env).exitCode = 1 ∧
      (connect_to_database databaseName profile port env).lookedUp = false ∧
      (connect_to_database databaseName profile port env).launchAttempted = false) ∧
    (env.confirmLogin = true → env.loginOk = false →
      (connect_to_database databaseName profile port env).exitCode = 1 ∧
      (connect_to_database databaseName profile port env).lookedUp = false ∧
      (connect_to_database databaseName profile port env).launchAttempted = false) := by
  refine ⟨?_, ?_, ?_⟩
  · unfold connect_to_database
    repeat' split
    all_goals try simp_all
    all_goals repeat' split
    all_goals simp_all
  · intro hc
    have hsb : sessionBlocked env = true := by
      simp [sessionBlocked, hinv, hc]
    unfold connect_to_database
    simp [hsb]
  · intro hc hl
    have hsb : sessionBlocked env = true := by
      simp [sessionBlocked, hinv, hc, hl]
    unfold connect_to_database
    simp [hsb]

/-- Witness for C9: a timed-out identity check with a declined re-auth
prompt stops with exit 1, no lookup and no launch. -/
theorem invalid_session_reauth_gate_witness :
    (connect_to_database "hk-postgres-dev" "houlak" none
      { identityCheck := .timedOut, confirmLogin := false, loginOk := false,
        dbConfig := some ⟨some "i-0123", some "db.internal", some 5432, none, none, none⟩,
        portInUse := fun _ => false, confirmAltPort := fun _ => true,
        launchOk := true, earlyExit := none, earlyStderr := "", run := .natural 0,
        shutdownProc := ⟨none, some 0, none, false⟩ }).exitCode = 1 ∧
    (connect_to_database "hk-postgres-dev" "houlak" none
      { identityCheck := .timedOut, confirmLogin := false, loginOk := false,
        dbConfig := some ⟨some "i-0123", some "db.internal", some 5432, none, none, none⟩,
        portInUse := fun _ => false, confirmAltPort := fun _ => true,
        launchOk := true, earlyExit := none, earlyStderr := "", run := .natural 0,
        shutdownProc := ⟨none, some 0, none, false⟩ }).launchAttempted = false := by
  have h := invalid_session_reauth_gate "hk-postgres-dev" "houlak" none
    { identityCheck := .timedOut, confirmLogin := false, loginOk := false,
      dbConfig := some ⟨some "i-0123", some "db.internal", some 5432, none, none, none⟩,
      portInUse := fun _ => false, confirmAltPort := fun _ => true,
      launchOk := true, earlyExit := none, earlyStderr := "", run := .natural 0,
      shutdownProc := ⟨none, some 0, none, false⟩ } rfl
  exact ⟨(h.2.1 rfl).1, (h.2.1 rfl).2.2⟩

/-- C4: a tunnel subprocess found dead at the post-grace-window poll
with exit code 255 is classified as the session/credential/connectivity
diagnostic class — a class no other exit code reaches unless "255"
appears in the captured stderr — and the connect operation exits with
status 1. -/
theorem early_exit_255_classified (databaseName profile : String) (port : Option Nat)
    (env : Env) (hearly : env.earlyExit = some 255)
    (hreach : (connect_to_database databaseName profile port env).launchAttempted = true)
    (hlaunch : env.launchOk = true) :
    (connect_to_database databaseName profile port env).earlyClass =
      some DiagClass.sessionCredentialConnectivity ∧
    (connect_to_database databaseName profile port env).exitCode = 1 ∧
    (∀ rc stderr, rc ≠ 255 → strHasSub stderr "255" = false →
      classifyEarlyFailure rc stderr ≠ DiagClass.sessionCredentialConnectivity) := by
  refine ⟨?_, ?_, ?_⟩
  · revert hreach
    unfold connect_to_database
    repeat' split
    all_goals intro hreach
    all_goals try simp_all [classifyEarlyFailure]
    all_goals repeat' split
    all_goals simp_all [classifyEarlyFailure]
  · revert hreach
    unfold connect_to_database
    repeat' split
    all_goals intro hreach
    all_goals try simp_all
    all_goals repeat' split
    all_goals simp_all
  · intro rc stderr hrc hsub
    have hcond : (rc == 255 || strHasSub stderr "255") = false := by
      simp [hrc, hsub]
    simp only [classifyEarlyFailure, hcond]
    repeat' split
    all_goals simp_all

/-- Witness for C4: an immediately-dead subprocess with code 255 in an
otherwise healthy environment. -/
theorem early_exit_255_classified_witness :
    (connect_to_database "hk-postgres-dev" "houlak" none
      { identityCheck := .exited 0, confirmLogin := false, loginOk := false,
        dbConfig := some ⟨some "i-0123", some "db.internal", some 5432, none, none, none⟩,
        portInUse := fun _ => false, confirmAltPort := fun _ => true,
        launchOk := true, earlyExit := some 255, earlyStderr := "", run := .natural 0,
        shutdownProc := ⟨none, some 0, none, false⟩ }).earlyClass =
      some DiagClass.sessionCredentialConnectivity ∧
    (connect_to_database "hk-postgres-dev" "houlak" none
      { identityCheck := .exited 0, confirmLogin := false, loginOk := false,
        dbConfig := some ⟨some "i-0123", some "db.internal", some 5432, none, none, none⟩,
        portInUse := fun _ => false, confirmAltPort := fun _ => true,
        launchOk := true, earlyExit := some 255, earlyStderr := "", run := .natural 0,
        shutdownProc := ⟨none, some 0, none, false⟩ }).exitCode = 1 := by
  have h := early_exit_255_classified "hk-postgres-dev" "houlak" none
    { identityCheck := .exited 0, confirmLogin := false, loginOk := false,
      dbConfig := some ⟨some "i-0123", some "db.internal", some 5432, none, none, none⟩,
      portInUse := fun _ => false, confirmAltPort := fun _ => true,
      launchOk := true, earlyExit := some 255, earlyStderr := "", run := .natural 0,
      shutdownProc := ⟨none, some 0, none, false⟩ } rfl (by decide) rfl
  exact ⟨h.1, h.2.1⟩

/-- C7: every successful connection establishment overwrites the
single-slot last-connection record with exactly the database name,
engine, environment, local port and profile used, and reading the slot
back after the save returns that same record. -/
theorem last_connection_round_trip (databaseName profile : String) (port : Option Nat)
    (env : Env) (cfg : DbConfig) (cache : List (String × CacheValue))
    (hcfg : env.dbConfig = some cfg)
    (h0 : (connect_to_database databaseName profile port env).exitCode = 0) :
    ∃ lport,
      (connect_to_database databaseName profile port env).launchedPort = some lport ∧
      (connect_to_database databaseName profile port env).saved =
        some { database := databaseName, engine := cfg.engine.getD "postgres",
               environment := cfg.environment.getD "unknown", port := lport,
               profile := profile } ∧
      get_last_connection
          (save_last_connection cache databaseName (cfg.engine.getD "postgres")
            (cfg.environment.getD "unknown") lport profile) =
        some (CacheValue.conn
          { database := databaseName, engine := cfg.engine.getD "postgres",
            environment := cfg.environment.getD "unknown", port := lport,
            profile := profile }) := by
  revert h0
  unfold connect_to_database
  repeat' split
  all_goals intro h0
  all_goals try simp_all [get_last_connection, save_last_connection, cacheGet, cacheSet,
    signal_handler]
  all_goals repeat' split
  all_goals simp_all [get_last_connection, save_last_connection, cacheGet, cacheSet,
    signal_handler]

/-- Witness for C7 in a healthy environment: the saved record is the
postgres default on port 54320 and reads back unchanged. -/
theorem last_connection_round_trip_witness :
    ∃ lport,
      (connect_to_database "hk-postgres-dev" "houlak" none
        { identityCheck := .exited 0, confirmLogin := false, loginOk := false,
          dbConfig := some ⟨some "i-0123", some "db.internal", some 5432, none, none, none⟩,
          portInUse := fun _ => false, confirmAltPort := fun _ => true,
          launchOk := true, earlyExit := none, earlyStderr := "", run := .natural 0,
          shutdownProc := ⟨none, some 0, none, false⟩ }).launchedPort = some lport ∧
      (connect_to_database "hk-postgres-dev" "houlak" none
        { identityCheck := .exited 0, confirmLogin := false, loginOk := false,
          dbConfig := some ⟨some "i-0123", some "db.internal", some 5432, none, none, none⟩,
          portInUse := fun _ => false, confirmAltPort := fun _ => true,
          launchOk := true, earlyExit := none, earlyStderr := "", run := .natural 0,
          shutdownProc := ⟨none, some 0, none, false⟩ }).saved =
        some { database := "hk-postgres-dev", engine := "postgres",
               environment := "unknown", port := lport, profile := "houlak" } ∧
      get_last_connection
          (save_last_connection [] "hk-postgres-dev" "postgres" "unknown" lport "houlak") =
        some (CacheValue.conn
          { database := "hk-postgres-dev", engine := "postgres",
            environment := "unknown", port := lport, profile := "houlak" }) :=
  last_connection_round_trip "hk-postgres-dev" "houlak" none
    { identityCheck := .exited 0, confirmLogin := false, loginOk := false,
      dbConfig := some ⟨some "i-0123", some "db.internal", some 5432, none, none, none⟩,
      portInUse := fun _ => false, confirmAltPort := fun _ => true,
      launchOk := true, earlyExit := none, earlyStderr := "", run := .natural 0,
      shutdownProc := ⟨none, some 0, none, false⟩ }
    ⟨some "i-0123", some "db.internal", some 5432, none, none, none⟩ [] rfl (by decide)

/-- C10: a record carrying the three required fields but missing
`engine`, `region` and `environment` is not malformed; the connection
proceeds with defaults engine `postgres`, region `us-east-1`,
environment `unknown`, and with no requested local port the launcher
receives the postgres default local port 54320 (when that port is
free). -/
theorem missing_optional_fields_defaults (databaseName profile : String) (env : Env)
    (cfg : DbConfig) (b host : String) (rp : Nat)
    (hcfg : env.dbConfig = some cfg)
    (hb : cfg.bastionInstanceId = some b) (hbne : b ≠ "")
    (hh : cfg.rdsEndpoint = some host) (hhne : host ≠ "")
    (hp : cfg.rdsPort = some rp) (hpne : rp ≠ 0)
    (heng : cfg.engine = none) (hreg : cfg.region = none) (henvf : cfg.environment = none)
    (hsb : sessionBlocked env = false)
    (hfree : env.portInUse 54320 = false) :
    (connect_to_database databaseName profile none env).launchAttempted = true ∧
    (connect_to_database databaseName profile none env).launchedPort = some 54320 ∧
    (connect_to_database databaseName profile none env).launchedRegion = some "us-east-1" ∧
    (env.launchOk = true → env.earlyExit = none →
      (connect_to_database databaseName profile none env).saved =
        some { database := databaseName, engine := "postgres", environment := "unknown",
               port := 54320, profile := profile }) := by
  have hmal : malformedRecord cfg = false := by
    simp [malformedRecord, strFalsy, natFalsy, hb, hh, hp, hbne, hhne, hpne]
  have hdp : defaultPortFor "postgres" = 54320 := by decide
  have hneg : negotiatePort env (defaultPortFor (cfg.engine.getD "postgres")) =
      PortOutcome.ok 54320 := by
    rw [heng]
    simp only [Option.getD_none, hdp]
    simp [negotiatePort, hfree]
  unfold connect_to_database
  rw [hcfg]
  simp only [hsb, Bool.false_eq_true, if_false, hmal, Bool.false_eq_true, if_false, hneg]
  simp only [heng, hreg, henvf, Option.getD_none, hdp]
  repeat' split
  all_goals simp_all

/-- Witness for C10: a record with only the three required fields, a
free default port and a healthy session launches on port 54320 in
region us-east-1 and saves engine `postgres`, environment `unknown`. -/
theorem missing_optional_fields_defaults_witness :
    (connect_to_database "hk-postgres-dev" "houlak" none
      { identityCheck := .exited 0, confirmLogin := false, loginOk := false,
        dbConfig := some ⟨some "i-0123", some "db.internal", some 5432, none, none, none⟩,
        portInUse := fun _ => false, confirmAltPort := fun _ => true,
        launchOk := true, earlyExit := none, earlyStderr := "", run := .natural 0,
        shutdownProc := ⟨none, some 0, none, false⟩ }).launchedPort = some 54320 ∧
    (connect_to_database "hk-postgres-dev" "houlak" none
      { identityCheck := .exited 0, confirmLogin := false, loginOk := false,
        dbConfig := some ⟨some "i-0123", some "db.internal", some 5432, none, none, none⟩,
        portInUse := fun _ => false, confirmAltPort := fun _ => true,
        launchOk := true, earlyExit := none, earlyStderr := "", run := .natural 0,
        shutdownProc := ⟨none, some 0, none, false⟩ }).saved =
      some { database := "hk-postgres-dev", engine := "postgres",
             environment := "unknown", port := 54320, profile := "houlak" } := by
  have h := missing_optional_fields_defaults "hk-postgres-dev" "houlak"
    { identityCheck := .exited 0, confirmLogin := false, loginOk := false,
      dbConfig := some ⟨some "i-0123", some "db.internal", some 5432, none, none, none⟩,
      portInUse := fun _ => false, confirmAltPort := fun _ => true,
      launchOk := true, earlyExit := none, earlyStderr := "", run := .natural 0,
      shutdownProc := ⟨none, some 0, none, false⟩ }
    ⟨some "i-0123", some "db.internal", some 5432, none, none, none⟩
    "i-0123" "db.internal" 5432 rfl rfl (by decide) rfl (by decide) rfl (by decide)
    rfl rfl rfl (by decide) rfl
  exact ⟨h.2.1, h.2.2.2 rfl rfl⟩

end Houlak
